import Mathlib

/-!
Verification of the sidecar process supervisor of the cribl-hc desktop shell
(`src-tauri/src/lib.rs`).  The Rust source is shallowly embedded: the port
handshake loop becomes a fuel-indexed scanner over a list of lines, the
`PythonBackend` managed state becomes a record with two optional fields, and
each Tauri command becomes a pure function from its external inputs (mode,
resource-resolution outcome, spawn outcome, captured stdout lines, dialog
outcome) to a result and the successor state.
-/

deriving instance DecidableEq for Except

namespace CriblHC

/-- The literal prefix `PORT:` looked for on each stdout line (lib.rs line 46). -/
def portTag : String := "PORT:"

/-- Value of one decimal ASCII digit, `none` on any other character. -/
def digitVal (c : Char) : Option Nat :=
  if c.isDigit then some (c.toNat - 48) else none

/-- Accumulate decimal digits left to right; fails on a non-digit character.
Mirrors the digit loop inside Rust `str::parse::<u16>`. -/
def parseDigitsAux : List Char → Nat → Option Nat
  | [], acc => some acc
  | c :: cs, acc =>
    match digitVal c with
    | some d => parseDigitsAux cs (acc * 10 + d)
    | none => none

/-- Strip leading and trailing whitespace, mirroring Rust `str::trim`. -/
def trimChars (cs : List Char) : List Char :=
  ((cs.dropWhile Char.isWhitespace).reverse.dropWhile Char.isWhitespace).reverse

/-- A non-empty run of ASCII digits whose value fits in 16 bits; anything
else is a parse error. -/
def parse_u16_core (cs : List Char) : Option Nat :=
  match cs with
  | [] => none
  | _ =>
    match parseDigitsAux cs 0 with
    | some v => if v ≤ 65535 then some v else none
    | none => none

/-- Embedding of Rust `s.parse::<u16>()`: an optional leading `+` sign, then
a non-empty run of ASCII digits whose value fits in 16 bits. -/
def parse_u16 (s : List Char) : Option Nat :=
  match s with
  | '+' :: rest => parse_u16_core rest
  | other => parse_u16_core other

/-- One iteration body of the handshake loop (lib.rs lines 46-51): a line
yields a port exactly when it starts with `PORT:` and the remainder (the
byte slice `line[5..]`), trimmed, parses as a u16.  Lines are handled as
their character lists so that every operation is kernel-computable; as the
prefix `PORT:` is ASCII, byte index 5 and character index 5 coincide. -/
def line_match (l : String) : Option Nat :=
  if portTag.data.isPrefixOf l.data then parse_u16 (trimChars (l.data.drop 5))
  else none

/-- The handshake scan with explicit fuel (`take 10` in lib.rs line 43).
Returns the discovered port (if any) together with the number of lines the
loop consumed from the stream. -/
def read_port_aux : Nat → List String → Option Nat × Nat
  | 0, _ => (none, 0)
  | _ + 1, [] => (none, 0)
  | n + 1, l :: ls =>
    match line_match l with
    | some p => (some p, 1)
    | none =>
      let r := read_port_aux n ls
      (r.1, r.2 + 1)

/-- The port discovered by the handshake reader on a stream of lines
(lib.rs lines 42-53). -/
def read_port (lines : List String) : Option Nat :=
  (read_port_aux 10 lines).1

/-- How many lines the handshake reader consumes from the stream. -/
def lines_read (lines : List String) : Nat :=
  (read_port_aux 10 lines).2

/-- Error message of `port.ok_or(...)` (lib.rs line 55): the PortNotFound
error of the spec. -/
def msgPortFail : String := "Failed to read port from backend"

/-- Embedding of lib.rs line 55: lift the scan result into the command's
error channel. -/
def read_port_result (lines : List String) : Except String Nat :=
  match read_port lines with
  | some p => Except.ok p
  | none => Except.error msgPortFail

/-- The managed state (lib.rs lines 7-10): an optional handle to the running
child process and an optional discovered port.  Child handles are modelled by
process identifiers; the mutexes disappear because each command is embedded
as a whole-state transformer. -/
structure PythonBackend where
  process : Option Nat
  port : Option Nat
deriving DecidableEq, Repr

/-- `PythonBackend { process: Default::default(), port: Default::default() }`
as managed at startup (lib.rs lines 142-145). -/
def initState : PythonBackend :=
  { process := none, port := none }

/-- Build-time mode: `cfg!(debug_assertions)` true (Development) or false
(Production). -/
inductive Mode where
  | Development
  | Production
deriving DecidableEq, Repr

/-- The external collaborators consulted by one `start_backend` invocation:
the build mode, the outcome of the host's resource-dir resolution (lib.rs
lines 22-27), the outcome of spawning the sidecar (lines 30-36, yielding a
child process identifier), whether the child's stdout pipe was obtainable
(line 39), and the lines the child writes to stdout (lines 40-53). -/
structure Env where
  mode : Mode
  resourceDir : Except String String
  spawnRes : Except String Nat
  stdoutCaptured : Bool
  stdoutLines : List String
deriving DecidableEq, Repr

/-- What one `start_backend` invocation produces: the returned
`Result<String, String>`, the successor managed state, the children spawned
during the call, and the children terminated during the call (the source
never kills a child, so the last list is empty on every path). -/
structure StartOutcome where
  result : Except String String
  state : PythonBackend
  spawned : List Nat
  killed : List Nat
deriving DecidableEq, Repr

/-- Fixed development-mode port (lib.rs line 17). -/
def devPort : Nat := 8080

/-- Message returned by the development branch (lib.rs line 18). -/
def msgDevMode : String :=
  "Development mode - Python backend should be started manually on port 8080"

/-- Error prefix of lib.rs line 25: the ResourceResolutionError of the spec. -/
def msgResourceFail : String := "Failed to get resource dir: "

/-- Error prefix of lib.rs line 36: the SpawnError of the spec. -/
def msgSpawnFail : String := "Failed to start backend: "

/-- Error of lib.rs line 39 when the stdout pipe cannot be taken. -/
def msgCaptureFail : String := "Failed to capture stdout"

/-- Success message prefix of lib.rs line 61. -/
def msgStarted : String := "Backend started on port "

/-- Error of lib.rs line 71: the NotStartedError of the spec. -/
def msgNotStarted : String := "Backend not started yet"

/-- URL prefix of lib.rs line 70. -/
def urlBase : String := "http://localhost:"

/-- Status message prefix of lib.rs line 78. -/
def msgStatus : String := "Backend status: Running on "

/-- Embedding of `start_backend` (lib.rs lines 12-62).  In Development mode
it only records the fixed port; in Production it resolves the sidecar path,
spawns the child, captures its stdout, runs the handshake reader, and on
success stores the child handle and the discovered port. -/
def start_backend (env : Env) (st : PythonBackend) : StartOutcome :=
  match env.mode with
  | Mode.Development =>
    { result := Except.ok msgDevMode
      state := { st with port := some devPort }
      spawned := []
      killed := [] }
  | Mode.Production =>
    match env.resourceDir with
    | Except.error e =>
      { result := Except.error (msgResourceFail ++ e)
        state := st
        spawned := []
        killed := [] }
    | Except.ok _ =>
      match env.spawnRes with
      | Except.error e =>
        { result := Except.error (msgSpawnFail ++ e)
          state := st
          spawned := []
          killed := [] }
      | Except.ok child =>
        if env.stdoutCaptured then
          match read_port_result env.stdoutLines with
          | Except.ok p =>
            { result := Except.ok (msgStarted ++ toString p)
              state := { process := some child, port := some p }
              spawned := [child]
              killed := [] }
          | Except.error e =>
            { result := Except.error e
              state := st
              spawned := [child]
              killed := [] }
        else
          { result := Except.error msgCaptureFail
            state := st
            spawned := [child]
            killed := [] }

/-- Embedding of `get_backend_url` (lib.rs lines 64-73). -/
def get_backend_url (st : PythonBackend) : Except String String :=
  match st.port with
  | some p => Except.ok (urlBase ++ toString p)
  | none => Except.error msgNotStarted

/-- Embedding of `get_backend_status` (lib.rs lines 75-79): the `?` on
`get_backend_url` propagates its error. -/
def get_backend_status (st : PythonBackend) : Except String String :=
  match get_backend_url st with
  | Except.ok url => Except.ok (msgStatus ++ url)
  | Except.error e => Except.error e

/-- One externally invokable lifecycle operation on the managed state. -/
inductive Op where
  | start (env : Env)
  | getUrl
  | getStatus
deriving DecidableEq, Repr

/-- Effect of one operation on the managed state: only `start_backend`
writes it, the query commands leave it unchanged. -/
def step (st : PythonBackend) (op : Op) : PythonBackend :=
  match op with
  | Op.start env => (start_backend env st).state
  | Op.getUrl => st
  | Op.getStatus => st

/-- Run a sequence of operations from a state. -/
def runOps (st : PythonBackend) (ops : List Op) : PythonBackend :=
  ops.foldl step st

/-- Outcome of the native save dialog: a local filesystem path, a URL, or
`None` when the user cancels (lib.rs lines 90-96 and the
`tauri_plugin_dialog::FilePath` cases). -/
inductive DialogOutcome where
  | localPath (p : String)
  | remoteUrl (u : String)
deriving DecidableEq, Repr

/-- Error of lib.rs line 105: the SaveCancelled error of the spec. -/
def msgCancelled : String := "Save cancelled"

/-- Error of lib.rs line 104: the UnsupportedPathError of the spec. -/
def msgUrlUnsupported : String := "URL paths not supported"

/-- Error prefix of lib.rs line 100: the WriteError of the spec. -/
def msgWriteFail : String := "Failed to save file: "

/-- Embedding of `save_file_with_dialog` (lib.rs lines 81-107).  `dialog` is
what the native save dialog returned, `writeRes` the outcome `fs::write`
would have on the chosen path.  The second component lists the writes the
operation performed on the filesystem (path and byte content); it is empty
whenever no file was written. -/
def save_file_with_dialog (filename : String) (content : List Nat)
    (dialog : Option DialogOutcome) (writeRes : Except String Unit) :
    Except String String × List (String × List Nat) :=
  match dialog with
  | some (DialogOutcome.localPath p) =>
    match writeRes with
    | Except.ok _ => (Except.ok p, [(p, content)])
    | Except.error e => (Except.error (msgWriteFail ++ e), [])
  | some (DialogOutcome.remoteUrl _) => (Except.error msgUrlUnsupported, [])
  | none => (Except.error msgCancelled, [])

/-! ### Lemmas about the handshake scan -/

/-- When every line of `pre` fails to match and `v` matches with value `p`,
the scan over `pre ++ v :: rest` with enough fuel returns `p` after
consuming exactly the lines up to and including `v`. -/
theorem read_port_aux_found (pre : List String) :
    ∀ (n : Nat) (v : String) (rest : List String) (p : Nat),
      (∀ l ∈ pre, line_match l = none) → pre.length < n → line_match v = some p →
      read_port_aux n (pre ++ v :: rest) = (some p, pre.length + 1) := by
  induction pre with
  | nil =>
    intro n v rest p _ hn hv
    cases n with
    | zero => exact absurd hn (Nat.not_lt_zero _)
    | succ m => simp [read_port_aux, hv]
  | cons a as ih =>
    intro n v rest p hpre hn hv
    cases n with
    | zero => exact absurd hn (Nat.not_lt_zero _)
    | succ m =>
      have ha : line_match a = none := hpre a (List.mem_cons_self a as)
      have hm : as.length < m := by
        simpa [Nat.succ_lt_succ_iff] using hn
      have hrec := ih m v rest p (fun l hl => hpre l (List.mem_cons_of_mem a hl)) hm hv
      simp [read_port_aux, ha, hrec]

/-- When no line of the first `n` matches, the scan with fuel `n` finds
nothing and consumes `min n lines.length` lines. -/
theorem read_port_aux_none (lines : List String) :
    ∀ n, (∀ l ∈ lines.take n, line_match l = none) →
      read_port_aux n lines = (none, min n lines.length) := by
  induction lines with
  | nil =>
    intro n _
    cases n <;> simp [read_port_aux]
  | cons a as ih =>
    intro n h
    cases n with
    | zero => simp [read_port_aux]
    | succ m =>
      have ha : line_match a = none := by
        apply h
        simp [List.take_succ_cons]
      have hrec := ih m (fun l hl => h l (by rw [List.take_succ_cons]; exact List.mem_cons_of_mem a hl))
      simp only [read_port_aux, ha, hrec]
      rw [Prod.mk.injEq]
      refine ⟨rfl, ?_⟩
      simp only [List.length_cons]
      omega

/-! ### Claims about the port handshake reader -/

/-- Claim C1: if the first line that begins with `PORT:` and whose trimmed
suffix parses as a u16 occurs at 0-based index `i < 10`, the reader returns
that parsed value and reads exactly `i + 1` lines, never inspecting a line
after index `i`. -/
theorem spec_c1 (lines : List String) (i p : Nat) (hi : i < 10)
    (hlen : i < lines.length)
    (hbefore : ∀ l ∈ lines.take i, line_match l = none)
    (hmatch : line_match (lines.get ⟨i, hlen⟩) = some p) :
    read_port lines = some p ∧ lines_read lines = i + 1 := by
  have hdec : lines = lines.take i ++ lines.get ⟨i, hlen⟩ :: lines.drop (i + 1) := by
    rw [List.get_eq_getElem]
    conv_lhs => rw [← List.take_append_drop i lines]
    rw [List.drop_eq_getElem_cons hlen]
  have hlt : (lines.take i).length < 10 := by
    rw [List.length_take]
    omega
  have hfound := read_port_aux_found (lines.take i) 10 (lines.get ⟨i, hlen⟩)
    (lines.drop (i + 1)) p hbefore hlt hmatch
  have hlen10 : (lines.take i).length = i := by
    rw [List.length_take]
    omega
  constructor
  · simp only [read_port]
    rw [hdec, hfound]
  · simp only [lines_read]
    rw [hdec, hfound, hlen10]

/-- Witness for C1 on the spec's scenario: the stream
`["Booting...", "PORT:54321", "Ready"]` yields port 54321 after exactly two
lines. -/
theorem spec_c1_witness :
    read_port ["Booting...", "PORT:54321", "Ready"] = some 54321 ∧
    lines_read ["Booting...", "PORT:54321", "Ready"] = 2 :=
  spec_c1 ["Booting...", "PORT:54321", "Ready"] 1 54321 (by decide) (by decide)
    (by decide) (by decide)

/-- Claim C2: when none of the first 10 lines both starts with `PORT:` and
has a suffix parsing as a u16, the reader fails with the PortNotFound error
having consumed at most 10 lines. -/
theorem spec_c2 (lines : List String)
    (h : ∀ l ∈ lines.take 10, line_match l = none) :
    read_port_result lines = Except.error msgPortFail ∧ lines_read lines ≤ 10 := by
  have hn := read_port_aux_none lines 10 h
  constructor
  · simp [read_port_result, read_port, hn]
  · simp only [lines_read, hn]
    omega

/-- Witness for C2 on the spec's scenario: a 12-line stream with no matching
line fails with PortNotFound. -/
theorem spec_c2_witness :
    read_port_result ["l1", "l2", "l3", "l4", "l5", "l6", "l7", "l8", "l9",
      "l10", "PORT:80", "l12"] = Except.error msgPortFail ∧
    lines_read ["l1", "l2", "l3", "l4", "l5", "l6", "l7", "l8", "l9",
      "l10", "PORT:80", "l12"] ≤ 10 :=
  spec_c2 ["l1", "l2", "l3", "l4", "l5", "l6", "l7", "l8", "l9",
    "l10", "PORT:80", "l12"] (by decide)

/-- Claim C3: malformed lines among the first 10 (wrong prefix, or `PORT:`
with a non-numeric or out-of-range suffix) are skipped without aborting the
scan, so a later valid line within the budget is still found. -/
theorem spec_c3 (pre : List String) (v : String) (rest : List String) (p : Nat)
    (hpre : ∀ l ∈ pre, line_match l = none) (hlen : pre.length < 10)
    (hv : line_match v = some p) :
    read_port (pre ++ v :: rest) = some p := by
  simp only [read_port]
  rw [read_port_aux_found pre 10 v rest p hpre hlen hv]

/-- Witness for C3: a non-numeric candidate and an out-of-range candidate
are both skipped and the later valid line still yields its port. -/
theorem spec_c3_witness :
    read_port (["PORT:abc", "PORT:99999"] ++ "PORT:54321" :: ["Ready"]) = some 54321 :=
  spec_c3 ["PORT:abc", "PORT:99999"] "PORT:54321" ["Ready"] 54321
    (by decide) (by decide) (by decide)

/-! ### Lemmas about the supervisor state machine -/

/-- Whatever the digit-run parser accepts fits in 16 bits. -/
theorem parse_u16_core_le (cs : List Char) (v : Nat)
    (h : parse_u16_core cs = some v) : v ≤ 65535 := by
  unfold parse_u16_core at h
  split at h
  · simp at h
  · split at h
    · split at h
      · injection h with hv
        omega
      · simp at h
    · simp at h

/-- Whatever `parse_u16` accepts fits in 16 bits. -/
theorem parse_u16_le (s : List Char) (v : Nat) (h : parse_u16 s = some v) :
    v ≤ 65535 := by
  unfold parse_u16 at h
  split at h
  · exact parse_u16_core_le _ v h
  · exact parse_u16_core_le _ v h

/-- A matching line always carries a 16-bit value. -/
theorem line_match_le (l : String) (p : Nat) (h : line_match l = some p) :
    p ≤ 65535 := by
  unfold line_match at h
  split at h
  · exact parse_u16_le _ p h
  · simp at h

/-- The scan only ever reports a 16-bit value. -/
theorem read_port_aux_le (n : Nat) : ∀ (lines : List String) (p : Nat),
    (read_port_aux n lines).1 = some p → p ≤ 65535 := by
  induction n with
  | zero =>
    intro lines p h
    simp [read_port_aux] at h
  | succ m ih =>
    intro lines p h
    cases lines with
    | nil => simp [read_port_aux] at h
    | cons a as =>
      rw [read_port_aux] at h
      cases hm : line_match a with
      | some q =>
        rw [hm] at h
        simp at h
        subst h
        exact line_match_le a q hm
      | none =>
        rw [hm] at h
        simp at h
        exact ih as p h

/-- The handshake reader only ever reports a 16-bit value. -/
theorem read_port_le (lines : List String) (p : Nat)
    (h : read_port lines = some p) : p ≤ 65535 :=
  read_port_aux_le 10 lines p h

/-- A successful lifted handshake result comes from a successful scan. -/
theorem read_port_result_ok (lines : List String) (p : Nat)
    (h : read_port_result lines = Except.ok p) : read_port lines = some p := by
  unfold read_port_result at h
  split at h
  · injection h with hp
    subst hp
    assumption
  · simp at h

/-- The successor state of `start_backend` has one of three shapes: the old
state untouched (every error path), the old state with the development port
recorded, or a fresh pair of child handle and discovered port. -/
theorem start_backend_state_shape (env : Env) (st : PythonBackend) :
    (start_backend env st).state = st ∨
    (start_backend env st).state = { st with port := some devPort } ∨
    ∃ c p, (start_backend env st).state =
      { process := some c, port := some p } ∧ read_port env.stdoutLines = some p := by
  unfold start_backend
  split
  · right
    left
    rfl
  · split
    · left
      rfl
    · split
      · left
        rfl
      · split
        · split
          · right
            right
            exact ⟨_, _, rfl, read_port_result_ok _ _ (by assumption)⟩
          · left
            rfl
        · left
          rfl

/-- Once the port field holds a value, one step never clears it. -/
theorem step_port_isSome (st : PythonBackend) (op : Op)
    (h : st.port.isSome = true) : (step st op).port.isSome = true := by
  cases op with
  | getUrl => exact h
  | getStatus => exact h
  | start env =>
    rcases start_backend_state_shape env st with h1 | h1 | ⟨c, p, h1, _⟩
    · simpa [step, h1] using h
    · simp [step, h1]
    · simp [step, h1]

/-- One step keeps every stored port within 16 bits. -/
theorem step_port_le (st : PythonBackend) (op : Op)
    (h : ∀ p, st.port = some p → p ≤ 65535) :
    ∀ p, (step st op).port = some p → p ≤ 65535 := by
  cases op with
  | getUrl => exact h
  | getStatus => exact h
  | start env =>
    rcases start_backend_state_shape env st with h1 | h1 | ⟨c, q, h1, hq⟩
    · intro p hp
      rw [step, h1] at hp
      exact h p hp
    · intro p hp
      rw [step, h1] at hp
      simp [devPort] at hp
      omega
    · intro p hp
      rw [step, h1] at hp
      simp at hp
      subst hp
      exact read_port_le _ _ hq

/-- Every reachable stored port is within 16 bits. -/
theorem runOps_port_le (ops : List Op) : ∀ st : PythonBackend,
    (∀ p, st.port = some p → p ≤ 65535) →
    ∀ p, (runOps st ops).port = some p → p ≤ 65535 := by
  induction ops with
  | nil => exact fun st h => h
  | cons op ops ih => exact fun st h => ih (step st op) (step_port_le st op h)

/-- One step keeps the handle-implies-port invariant. -/
theorem step_handle_port (st : PythonBackend) (op : Op)
    (h : st.process.isSome = true → st.port.isSome = true) :
    (step st op).process.isSome = true → (step st op).port.isSome = true := by
  cases op with
  | getUrl => exact h
  | getStatus => exact h
  | start env =>
    rcases start_backend_state_shape env st with h1 | h1 | ⟨c, p, h1, _⟩
    · simpa [step, h1] using h
    · simp [step, h1]
    · simp [step, h1]

/-- Every run keeps the handle-implies-port invariant. -/
theorem runOps_handle_port (ops : List Op) : ∀ st : PythonBackend,
    (st.process.isSome = true → st.port.isSome = true) →
    ((runOps st ops).process.isSome = true → (runOps st ops).port.isSome = true) := by
  induction ops with
  | nil => exact fun st h => h
  | cons op ops ih => exact fun st h => ih (step st op) (step_handle_port st op h)

/-! ### Claims about the supervisor -/

/-- Claim C4: `get_backend_url` on a state with no stored port fails with the
NotStartedError; after a Development-mode start it returns
`http://localhost:8080`; after a successful Production-mode start that
discovered port `p` it returns `http://localhost:<p>`. -/
theorem spec_c4 :
    (∀ pr : Option Nat,
      get_backend_url { process := pr, port := none } = Except.error msgNotStarted) ∧
    (∀ (env : Env) (st : PythonBackend), env.mode = Mode.Development →
      get_backend_url (start_backend env st).state = Except.ok "http://localhost:8080") ∧
    (∀ (env : Env) (st : PythonBackend) (sp : String) (child p : Nat),
      env.mode = Mode.Production → env.resourceDir = Except.ok sp →
      env.spawnRes = Except.ok child → env.stdoutCaptured = true →
      read_port env.stdoutLines = some p →
      get_backend_url (start_backend env st).state = Except.ok (urlBase ++ toString p)) := by
  refine ⟨?_, ?_, ?_⟩
  · intro pr
    simp [get_backend_url]
  · intro env st hmode
    simp only [start_backend, hmode]
    simp [get_backend_url, devPort]
    decide
  · intro env st sp child p hm hr hs hc hp
    simp only [start_backend, hm, hr, hs, hc, read_port_result, hp, if_true]
    simp [get_backend_url]

/-- Witness for C4 at a fresh state, a Development start and a Production
start whose child announces port 54321. -/
theorem spec_c4_witness :
    get_backend_url { process := none, port := none } = Except.error msgNotStarted ∧
    get_backend_url (start_backend
      ⟨Mode.Development, Except.error "x", Except.error "x", false, []⟩
      initState).state = Except.ok "http://localhost:8080" ∧
    get_backend_url (start_backend
      ⟨Mode.Production, Except.ok "res", Except.ok 7, true, ["PORT:54321"]⟩
      initState).state = Except.ok (urlBase ++ toString 54321) :=
  ⟨spec_c4.1 none,
   spec_c4.2.1 ⟨Mode.Development, Except.error "x", Except.error "x", false, []⟩
     initState rfl,
   spec_c4.2.2 ⟨Mode.Production, Except.ok "res", Except.ok 7, true, ["PORT:54321"]⟩
     initState "res" 7 54321 rfl rfl rfl rfl (by decide)⟩

/-- Claim C5 counterexample: the handshake reader does return 0 when the
child prints `PORT:0`, and a production start on such a stream stores 0 into
the state, contradicting the claim that 0 is never returned or stored. -/
theorem spec_c5_cex :
    read_port ["PORT:0"] = some 0 ∧
    (runOps initState
      [Op.start ⟨Mode.Production, Except.ok "res", Except.ok 1, true, ["PORT:0"]⟩]).port
      = some 0 := by
  decide

/-- Claim C5 as amended: every reachable stored port fits in 16 bits
(0 through 65535); the bound 1 ≤ p does not hold, since a stream containing
`PORT:0` makes the reader return 0 and the supervisor store it. -/
theorem spec_c5_amended (ops : List Op) (p : Nat)
    (h : (runOps initState ops).port = some p) : p ≤ 65535 := by
  refine runOps_port_le ops initState ?_ p h
  intro q hq
  simp [initState] at hq

/-- Witness for the amended C5 at a Development start. -/
theorem spec_c5_witness :
    (runOps initState
      [Op.start ⟨Mode.Development, Except.error "x", Except.error "x", false, []⟩]).port
      = some 8080 ∧ 8080 ≤ 65535 :=
  ⟨by decide,
   spec_c5_amended
     [Op.start ⟨Mode.Development, Except.error "x", Except.error "x", false, []⟩]
     8080 (by decide)⟩

/-- Claim C6: once the port field holds `some p`, no later sequence of
operations ever resets it to `none`. -/
theorem spec_c6 (st : PythonBackend) (p : Nat) (ops : List Op)
    (h : st.port = some p) : ∃ q, (runOps st ops).port = some q := by
  induction ops generalizing st p with
  | nil => exact ⟨p, h⟩
  | cons op ops ih =>
    have hstep : (step st op).port.isSome = true :=
      step_port_isSome st op (by simp [h])
    obtain ⟨q, hq⟩ := Option.isSome_iff_exists.mp hstep
    exact ih (step st op) q hq

/-- Witness for C6: a state holding port 5 still holds a port after a query. -/
theorem spec_c6_witness :
    (⟨none, some 5⟩ : PythonBackend).port = some 5 ∧
    ∃ q, (runOps ⟨none, some 5⟩ [Op.getUrl]).port = some q :=
  ⟨rfl, spec_c6 ⟨none, some 5⟩ 5 [Op.getUrl] rfl⟩

/-- Claim C7: a Production start whose resource resolution fails returns the
ResourceResolutionError, leaves the state untouched and spawns nothing. -/
theorem spec_c7 (env : Env) (st : PythonBackend) (e : String)
    (hm : env.mode = Mode.Production) (hr : env.resourceDir = Except.error e) :
    (start_backend env st).result = Except.error (msgResourceFail ++ e) ∧
    (start_backend env st).state = st ∧
    (start_backend env st).spawned = [] := by
  simp [start_backend, hm, hr]

/-- Witness for C7 with a concrete failing resolver. -/
theorem spec_c7_witness :
    (start_backend ⟨Mode.Production, Except.error "no dir", Except.ok 3, true, []⟩
      initState).result = Except.error (msgResourceFail ++ "no dir") ∧
    (start_backend ⟨Mode.Production, Except.error "no dir", Except.ok 3, true, []⟩
      initState).state = initState ∧
    (start_backend ⟨Mode.Production, Except.error "no dir", Except.ok 3, true, []⟩
      initState).spawned = [] :=
  spec_c7 ⟨Mode.Production, Except.error "no dir", Except.ok 3, true, []⟩
    initState "no dir" rfl rfl

/-- Claim C8: two successful Production starts spawn one child each, the
second call succeeds (no re-entrancy guard), the final state holds the
second child's handle and port, and neither call terminates any child, so
the first handle is overwritten without its process being killed. -/
theorem spec_c8 (env1 env2 : Env) (st : PythonBackend) (sp1 sp2 : String)
    (c1 c2 p1 p2 : Nat)
    (h1m : env1.mode = Mode.Production) (h1r : env1.resourceDir = Except.ok sp1)
    (h1s : env1.spawnRes = Except.ok c1) (h1c : env1.stdoutCaptured = true)
    (h1p : read_port env1.stdoutLines = some p1)
    (h2m : env2.mode = Mode.Production) (h2r : env2.resourceDir = Except.ok sp2)
    (h2s : env2.spawnRes = Except.ok c2) (h2c : env2.stdoutCaptured = true)
    (h2p : read_port env2.stdoutLines = some p2) :
    (start_backend env1 st).spawned = [c1] ∧
    (start_backend env1 st).state.process = some c1 ∧
    (start_backend env2 (start_backend env1 st).state).spawned = [c2] ∧
    (start_backend env2 (start_backend env1 st).state).result
      = Except.ok (msgStarted ++ toString p2) ∧
    (start_backend env2 (start_backend env1 st).state).state.process = some c2 ∧
    (start_backend env2 (start_backend env1 st).state).state.port = some p2 ∧
    (start_backend env1 st).killed = [] ∧
    (start_backend env2 (start_backend env1 st).state).killed = [] := by
  simp [start_backend, h1m, h1r, h1s, h1c, read_port_result, h1p,
    h2m, h2r, h2s, h2c, h2p]

/-- Witness for C8 with two concrete children announcing different ports. -/
theorem spec_c8_witness :
    (start_backend ⟨Mode.Production, Except.ok "r1", Except.ok 11, true, ["PORT:4001"]⟩
      initState).spawned = [11] ∧
    (start_backend ⟨Mode.Production, Except.ok "r1", Except.ok 11, true, ["PORT:4001"]⟩
      initState).state.process = some 11 ∧
    (start_backend ⟨Mode.Production, Except.ok "r2", Except.ok 12, true, ["PORT:4002"]⟩
      (start_backend ⟨Mode.Production, Except.ok "r1", Except.ok 11, true, ["PORT:4001"]⟩
        initState).state).spawned = [12] ∧
    (start_backend ⟨Mode.Production, Except.ok "r2", Except.ok 12, true, ["PORT:4002"]⟩
      (start_backend ⟨Mode.Production, Except.ok "r1", Except.ok 11, true, ["PORT:4001"]⟩
        initState).state).result = Except.ok (msgStarted ++ toString 4002) ∧
    (start_backend ⟨Mode.Production, Except.ok "r2", Except.ok 12, true, ["PORT:4002"]⟩
      (start_backend ⟨Mode.Production, Except.ok "r1", Except.ok 11, true, ["PORT:4001"]⟩
        initState).state).state.process = some 12 ∧
    (start_backend ⟨Mode.Production, Except.ok "r2", Except.ok 12, true, ["PORT:4002"]⟩
      (start_backend ⟨Mode.Production, Except.ok "r1", Except.ok 11, true, ["PORT:4001"]⟩
        initState).state).state.port = some 4002 ∧
    (start_backend ⟨Mode.Production, Except.ok "r1", Except.ok 11, true, ["PORT:4001"]⟩
      initState).killed = [] ∧
    (start_backend ⟨Mode.Production, Except.ok "r2", Except.ok 12, true, ["PORT:4002"]⟩
      (start_backend ⟨Mode.Production, Except.ok "r1", Except.ok 11, true, ["PORT:4001"]⟩
        initState).state).killed = [] :=
  spec_c8 ⟨Mode.Production, Except.ok "r1", Except.ok 11, true, ["PORT:4001"]⟩
    ⟨Mode.Production, Except.ok "r2", Except.ok 12, true, ["PORT:4002"]⟩
    initState "r1" "r2" 11 12 4001 4002
    rfl rfl rfl rfl (by decide) rfl rfl rfl rfl (by decide)

/-- Claim C9: whatever the filename, content and prospective write outcome,
a cancelled dialog makes the save operation fail with SaveCancelled and
perform no filesystem write. -/
theorem spec_c9 (filename : String) (content : List Nat)
    (writeRes : Except String Unit) :
    save_file_with_dialog filename content none writeRes
      = (Except.error msgCancelled, []) := rfl

/-- Claim C10: in every state reachable from the initial one, a stored child
handle is accompanied by a stored port. -/
theorem spec_c10 (ops : List Op)
    (h : (runOps initState ops).process.isSome = true) :
    (runOps initState ops).port.isSome = true := by
  refine runOps_handle_port ops initState ?_ h
  intro hx
  simp [initState] at hx

/-- Witness for C10 after one successful Production start. -/
theorem spec_c10_witness :
    (runOps initState
      [Op.start ⟨Mode.Production, Except.ok "r", Except.ok 9, true, ["PORT:4000"]⟩]).process.isSome
      = true ∧
    (runOps initState
      [Op.start ⟨Mode.Production, Except.ok "r", Except.ok 9, true, ["PORT:4000"]⟩]).port.isSome
      = true :=
  ⟨by decide,
   spec_c10 [Op.start ⟨Mode.Production, Except.ok "r", Except.ok 9, true, ["PORT:4000"]⟩]
     (by decide)⟩

end CriblHC
